import Mathlib

/-
Verification development for the K-browser tab/navigation state machine
(src/app.js).  The file embeds the second, per-tab variant of the code
(the one with `maxTabs`, per-tab `history`/`historyIndex`, and the iframe
load monitor) as executable Lean definitions and proves the specified
properties about them.
-/

/-! ### Platform string primitives

Models of the JavaScript string operations the code relies on
(`String.prototype.trim`, the `\s` regex class on the inputs considered,
and `encodeURIComponent`). -/

/-- Whitespace characters recognised by the JavaScript `trim` and `\s`
class, restricted to the code points that can occur in the inputs we
consider. -/
def isJsSpace (c : Char) : Bool :=
  c = ' ' || c = '\t' || c = '\n' || c = '\r' ||
  c.toNat = 11 || c.toNat = 12 || c.toNat = 160 || c.toNat = 65279

/-- Model of JavaScript `String.prototype.trim`: drop whitespace from both
ends. -/
def jsTrim (s : String) : String :=
  String.mk (((s.data.dropWhile isJsSpace).reverse.dropWhile isJsSpace).reverse)

/-- Model of the regex test `/\s/.test(s)`: does the string contain any
whitespace character? -/
def hasJsSpace (s : String) : Bool :=
  s.data.any isJsSpace

/-- Model of JavaScript `String.prototype.startsWith`, structurally over
the character list. -/
def jsStartsWith (s pre : String) : Bool :=
  pre.data.isPrefixOf s.data

/-- Model of JavaScript `String.prototype.includes` for a single
character. -/
def strContains (s : String) (c : Char) : Bool :=
  s.data.contains c

/-- Uppercase hexadecimal digit, as produced by `encodeURIComponent`. -/
def hexChar (n : Nat) : Char :=
  if n < 10 then Char.ofNat (48 + n) else Char.ofNat (55 + n)

/-- Bytes left unescaped by `encodeURIComponent`: ASCII alphanumerics and
`- _ . ! ~ * ( )` together with the apostrophe (code 39). -/
def isUnreservedByte (b : Nat) : Bool :=
  (65 ≤ b && b ≤ 90) || (97 ≤ b && b ≤ 122) || (48 ≤ b && b ≤ 57) ||
  b = 45 || b = 95 || b = 46 || b = 33 || b = 126 || b = 42 ||
  b = 39 || b = 40 || b = 41

/-- UTF-8 encoding of a single character, as a list of byte values. -/
def charUtf8 (c : Char) : List Nat :=
  let n := c.toNat
  if n < 128 then [n]
  else if n < 2048 then [192 + n / 64, 128 + n % 64]
  else if n < 65536 then [224 + n / 4096, 128 + (n / 64) % 64, 128 + n % 64]
  else [240 + n / 262144, 128 + (n / 4096) % 64, 128 + (n / 64) % 64, 128 + n % 64]

/-- Model of JavaScript `encodeURIComponent`: every byte of the UTF-8
encoding outside the unreserved set is written `%XX` with uppercase hex. -/
def encodeURIComponent (s : String) : String :=
  String.mk ((s.data.flatMap charUtf8).flatMap fun b =>
    if isUnreservedByte b then [Char.ofNat b]
    else ['%', hexChar (b / 16), hexChar (b % 16)])

/-! ### URL sanitizer (src/app.js, isValidUrl / sanitizeUrl)

The platform URL parser (`new URL`) is an external collaborator; its
success predicate is passed in as the parameter `urlOk`.  A `urlOk`
returning `true` models a constructor call that does not throw. -/

/-- Translation of `isValidUrl` (src/app.js lines 570-584).  `urlOk s`
models `new URL(s)` succeeding; any exception is caught and yields
`false`, exactly as the try/catch does. -/
def isValidUrl (urlOk : String → Bool) (s : String) : Bool :=
  if jsStartsWith s "http://" || jsStartsWith s "https://" then
    urlOk s
  else if strContains s '.' && !(strContains s ' ') && !(hasJsSpace s) then
    urlOk ("https://" ++ s)
  else
    false

/-- Translation of `sanitizeUrl` (src/app.js lines 586-602).  The input is
trimmed first; an empty trimmed input is falsy in JavaScript and yields
the fixed default. -/
def sanitizeUrl (urlOk : String → Bool) (input : String) : String :=
  let input := jsTrim input
  if input = "" then
    "https://www.google.com"
  else if jsStartsWith input "http://" || jsStartsWith input "https://" then
    input
  else if isValidUrl urlOk input then
    "https://" ++ input
  else
    "https://www.google.com/search?q=" ++ encodeURIComponent input

/-- Concrete model of the platform `new URL` constructor succeeding, used
to instantiate `urlOk` on the concrete inputs of the testable properties:
a string parses when it carries an explicit scheme followed by a nonempty,
whitespace-free remainder. -/
def urlOkModel (s : String) : Bool :=
  (jsStartsWith s "http://" || jsStartsWith s "https://") &&
  !(hasJsSpace s) && s.data.length > 8

/-! ### Browser state (second variant of `BrowserState`, src/app.js 445-544) -/

/-- Translation of the tab objects built by `addTab` (src/app.js 458-467).
The `iframe` field abstracts the DOM element to its presence. -/
structure Tab where
  id : String
  title : String
  url : String
  timestamp : Nat
  iframe : Bool
  history : List String
  historyIndex : Int
deriving Repr, DecidableEq

/-- Translation of the `BrowserState` fields (src/app.js 446-450). -/
structure BrowserState where
  tabs : List Tab
  activeTabId : Option String
  maxTabs : Nat
deriving Repr, DecidableEq

/-- The constructor state: no tabs, no active tab, `maxTabs = 3`. -/
def BrowserState.init : BrowserState :=
  { tabs := [], activeTabId := none, maxTabs := 3 }

/-- Mutation of the first list element satisfying `p`, as JavaScript
`find` followed by in-place mutation does. -/
def updateFirst (p : α → Bool) (f : α → α) : List α → List α
  | [] => []
  | x :: xs => if p x then f x :: xs else x :: updateFirst p f xs

/-- Translation of `BrowserState.addTab` (src/app.js 452-470): reject at
capacity (alerting and returning null), otherwise append a tab whose id is
derived from the clock value `now` (`Date.now()`). -/
def addTab (now : Nat) (url : String) (st : BrowserState) :
    BrowserState × Option Tab :=
  if st.maxTabs ≤ st.tabs.length then
    (st, none)
  else
    let tab : Tab :=
      { id := "tab-" ++ toString now
        title := "New Tab"
        url := if url = "" then "about:blank" else url
        timestamp := now
        iframe := false
        history := []
        historyIndex := -1 }
    ({ st with tabs := st.tabs ++ [tab] }, some tab)

/-- Translation of `BrowserState.removeTab` (src/app.js 472-485): splice
out the first tab with the id; if it was active, the first remaining tab
(or none) becomes active. -/
def removeTab (tabId : String) (st : BrowserState) : BrowserState :=
  match st.tabs.findIdx? (fun t => t.id = tabId) with
  | none => st
  | some i =>
    let tabs' := st.tabs.eraseIdx i
    { st with
      tabs := tabs'
      activeTabId :=
        if st.activeTabId = some tabId then tabs'.head?.map Tab.id
        else st.activeTabId }

/-- Translation of `BrowserState.getActiveTab` (src/app.js 487-489). -/
def getActiveTab (st : BrowserState) : Option Tab :=
  match st.activeTabId with
  | none => none
  | some a => st.tabs.find? (fun t => t.id = a)

/-- Translation of `BrowserState.updateTabTitle` (src/app.js 498-503): a
falsy (empty) title becomes "Untitled". -/
def updateTabTitle (tabId : String) (title : String) (st : BrowserState) :
    BrowserState :=
  { st with tabs :=
      (updateFirst (fun t => t.id = tabId)
        (fun t => { t with title := if title = "" then "Untitled" else title })
        st.tabs) }

/-- Translation of `BrowserState.updateTabUrl` (src/app.js 491-496). -/
def updateTabUrl (tabId : String) (url : String) (st : BrowserState) :
    BrowserState :=
  { st with tabs :=
      (updateFirst (fun t => t.id = tabId)
        (fun t => { t with url := url }) st.tabs) }

/-- Per-tab body of `addToHistory` (src/app.js 508-511): truncate the
forward history, append, and point at the new last entry. -/
def pushHistory (url : String) (t : Tab) : Tab :=
  let h := t.history.take (t.historyIndex + 1).toNat
  { t with
    history := h ++ [url]
    historyIndex := ((h ++ [url]).length : Int) - 1 }

/-- Translation of `BrowserState.addToHistory` (src/app.js 505-513). -/
def addToHistory (tabId : String) (url : String) (st : BrowserState) :
    BrowserState :=
  { st with tabs := updateFirst (fun t => t.id = tabId) (pushHistory url) st.tabs }

/-- Translation of `BrowserState.canGoBack` (src/app.js 515-519). -/
def canGoBack (tabId : String) (st : BrowserState) : Bool :=
  match st.tabs.find? (fun t => t.id = tabId) with
  | none => false
  | some t => t.historyIndex > 0

/-- Translation of `BrowserState.canGoForward` (src/app.js 521-525). -/
def canGoForward (tabId : String) (st : BrowserState) : Bool :=
  match st.tabs.find? (fun t => t.id = tabId) with
  | none => false
  | some t => t.historyIndex < (t.history.length : Int) - 1

/-- Translation of `BrowserState.goBack` (src/app.js 527-534): decrement
the index of the found tab and return the entry there; `none` models the
null result. -/
def goBack (tabId : String) (st : BrowserState) : BrowserState × Option String :=
  match st.tabs.find? (fun t => t.id = tabId) with
  | none => (st, none)
  | some t =>
    if canGoBack tabId st then
      ({ st with tabs :=
          (updateFirst (fun x => x.id = tabId)
            (fun x => { x with historyIndex := x.historyIndex - 1 }) st.tabs) },
       t.history[(t.historyIndex - 1).toNat]?)
    else (st, none)

/-- Translation of `BrowserState.goForward` (src/app.js 536-543). -/
def goForward (tabId : String) (st : BrowserState) : BrowserState × Option String :=
  match st.tabs.find? (fun t => t.id = tabId) with
  | none => (st, none)
  | some t =>
    if canGoForward tabId st then
      ({ st with tabs :=
          (updateFirst (fun x => x.id = tabId)
            (fun x => { x with historyIndex := x.historyIndex + 1 }) st.tabs) },
       t.history[(t.historyIndex + 1).toNat]?)
    else (st, none)

/-! ### UI-level tab operations (src/app.js 821-875)

Only the effects on the registry state are modelled; writes to DOM
elements (tab strip, address bar, iframe visibility) carry no registry
state. -/

/-- Translation of the registry effect of `switchTab` (src/app.js
842-875): `activeTabId` is assigned unconditionally; if the tab is found,
has no iframe, and has a real url, an iframe is created for it. -/
def switchTab (tabId : String) (st : BrowserState) : BrowserState :=
  let st' := { st with activeTabId := some tabId }
  match st'.tabs.find? (fun t => t.id = tabId) with
  | none => st'
  | some t =>
    if t.iframe then st'
    else if t.url ≠ "" ∧ t.url ≠ "about:blank" then
      { st' with tabs :=
          (updateFirst (fun x => x.id = tabId)
            (fun x => { x with iframe := true }) st'.tabs) }
    else st'

/-- Translation of the registry effect of `closeTab` (src/app.js 821-840):
a sole remaining tab is never closed; otherwise remove and re-activate. -/
def closeTab (tabId : String) (st : BrowserState) : BrowserState :=
  if st.tabs.length = 1 then st
  else
    let st' := removeTab tabId st
    match st'.activeTabId with
    | some a => switchTab a st'
    | none =>
      match st'.tabs.head? with
      | some t => switchTab t.id st'
      | none => st'

/-! ### Load monitor event loop (src/app.js 670-797 and 900-946)

A single iframe's load-handler callbacks, the `setTimeout` timers they
schedule, and `navigateToUrl` are modelled as a small event loop.  The
platform signals (document/window accessibility, document title, host
name of a URL) are supplied by a `LoadEnv`.  The `born` argument of a
callback is ghost bookkeeping recording the navigation attempt during
which it was scheduled; the code itself carries no such token and the
firing functions never consult it. -/

/-- Platform-supplied observations made by the load-handler callbacks,
as functions of the iframe's current `src`. -/
structure LoadEnv where
  hostname : String → String
  docBody : String → Bool
  docTitle : String → String
  winLoc : String → Bool

/-- The timers the code schedules: the 500 ms settle check, the 2 s
secondary re-check (capturing the host name computed at settle time),
and the 10 s load timeout (capturing the navigated url). -/
inductive Cb where
  | settle (born : Nat)
  | recheck (born : Nat) (host : String)
  | timeout (born : Nat) (url : String)
deriving Repr, DecidableEq

/-- Whether a pending entry is the load timeout (the only timer the code
ever cancels, via `clearTimeout(loadTimeout)`). -/
def Cb.isLoadTimeout : Cb → Bool
  | .timeout _ _ => true
  | _ => false

/-- UI and iframe state touched by the navigation/load code: error panel,
loading indicator, tab title, iframe src, the closure flag `hasLoaded`,
the distinct property `iframe._hasLoaded` written by `navigateToUrl`, and
the pending timers.  `attempt` is ghost: the number of `navigate` calls
so far. -/
structure Sim where
  time : Nat
  attempt : Nat
  src : String
  title : String
  loading : Bool
  errorShown : Bool
  errorUrl : String
  hasLoadedClosure : Bool
  hasLoadedProp : Bool
  pending : List (Nat × Cb)
deriving Repr, DecidableEq

/-- Effect of `updateTabTitle` on the active tab's title (src/app.js
498-503). -/
def setTitle (x : String) (s : Sim) : Sim :=
  { s with title := if x = "" then "Untitled" else x }

/-- Body of one timer when it fires (src/app.js 696-761 for settle,
740-757 for the re-check, 778-788 for the timeout).  The ghost `born`
tag is ignored: the code compares no attempt identity. -/
def fireCb (env : LoadEnv) (cb : Cb) (s : Sim) : Sim :=
  match cb with
  | .settle born =>
    if env.docBody s.src then
      setTitle (if env.docTitle s.src = "" then env.hostname s.src
                else env.docTitle s.src)
        { s with errorShown := false }
    else if env.winLoc s.src then
      setTitle (env.hostname s.src) { s with errorShown := false }
    else
      { s with pending :=
          s.pending ++ [(s.time + 2000, Cb.recheck born (env.hostname s.src))] }
  | .recheck _ _ =>
    if s.errorShown then s
    else if env.docBody s.src then s
    else { s with errorShown := true, errorUrl := s.src }
  | .timeout _ url =>
    if s.hasLoadedClosure then s
    else { s with loading := false, errorShown := true, errorUrl := url }

/-- First pending timer whose fire time has arrived, earliest first
(ties resolved in scheduling order, as the platform event loop does). -/
def pickDue (upTo : Nat) (l : List (Nat × Cb)) : Option (Nat × Cb) :=
  (l.filter fun e => e.1 ≤ upTo).foldl
    (fun acc e =>
      match acc with
      | none => some e
      | some b => if e.1 < b.1 then some e else some b)
    none

/-- Run every timer due by time `upTo`, in fire order.  The fuel bounds
the number of firings; each settle adds at most one re-check, so twice
the queue length plus one always suffices. -/
def fireDue (env : LoadEnv) : Nat → Nat → Sim → Sim
  | 0, _, s => s
  | fuel + 1, upTo, s =>
    match pickDue upTo s.pending with
    | none => s
    | some e =>
      fireDue env fuel upTo
        (fireCb env e.2 { s with pending := s.pending.erase e, time := e.1 })

/-- Advance the event loop to time `t`, firing whatever is due. -/
def runTo (env : LoadEnv) (t : Nat) (s : Sim) : Sim :=
  { (fireDue env (2 * s.pending.length + 1) t s) with time := t }

/-- Effect of `navigateToUrl` on an existing iframe (src/app.js 900-946),
called with an already-sanitized url: set the title from the host name,
show the loading indicator, hide the error panel, reset
`iframe._hasLoaded`, restart the 10 s timeout (`_startLoadTimeout` clears
the previous one), and assign `iframe.src`. -/
def navigateStep (env : LoadEnv) (t : Nat) (url : String) (s : Sim) : Sim :=
  let s := runTo env t s
  let a := s.attempt + 1
  { setTitle (env.hostname url) s with
    attempt := a
    loading := true
    errorShown := false
    hasLoadedProp := false
    pending := (s.pending.filter fun e => !(e.2.isLoadTimeout)) ++
      [(t + 10000, Cb.timeout a url)]
    src := url }

/-- Effect of the iframe `load` handler (src/app.js 685-762): record the
closure flag, cancel the timeout, hide the loading indicator, and
schedule the 500 ms settle check. -/
def loadEventStep (env : LoadEnv) (t : Nat) (s : Sim) : Sim :=
  let s := runTo env t s
  { s with
    hasLoadedClosure := true
    loading := false
    pending := (s.pending.filter fun e => !(e.2.isLoadTimeout)) ++
      [(t + 500, Cb.settle s.attempt)] }

/-- Effect of the iframe `error` handler (src/app.js 765-773): record the
closure flag, cancel the timeout, hide the loading indicator, and show
the load-failure error panel for the current src. -/
def errorEventStep (env : LoadEnv) (t : Nat) (s : Sim) : Sim :=
  let s := runTo env t s
  { s with
    hasLoadedClosure := true
    loading := false
    errorShown := true
    errorUrl := s.src
    pending := s.pending.filter fun e => !(e.2.isLoadTimeout) }

/-- Freshly created iframe state (src/app.js 670-683) on a new tab. -/
def Sim.init : Sim :=
  { time := 0, attempt := 0, src := "", title := "New Tab", loading := false
    errorShown := false, errorUrl := "", hasLoadedClosure := false
    hasLoadedProp := false, pending := [] }

/-- Concrete environment for the supersession scenario: two pages, the
second of which has an in-process-accessible (error) document and no
title. -/
def demoEnv : LoadEnv :=
  { hostname := fun s =>
      if s = "https://a.example/" then "a.example"
      else if s = "https://b.example/" then "b.example"
      else ""
    docBody := fun s => s = "https://b.example/"
    docTitle := fun _ => ""
    winLoc := fun _ => false }

/-- Supersession trace: navigate to page A, its `load` event fires and
schedules the settle check; before the check fires, navigate to page B on
the same tab; B fails with an `error` event, showing the error panel;
then A's still-pending settle check fires. -/
def demoTrace : Sim :=
  errorEventStep demoEnv 400
    (navigateStep demoEnv 300 "https://b.example/"
      (loadEventStep demoEnv 100
        (navigateStep demoEnv 0 "https://a.example/" Sim.init)))

/-- The same trace advanced past the stale settle check's fire time. -/
def demoTraceAfter : Sim :=
  runTo demoEnv 600 demoTrace

/-! ### Helper lemmas -/

/-- An element not satisfying the predicate survives erasing the found
index. -/
theorem mem_eraseIdx_of_findIdx? {α : Type} (p : α → Bool) :
    ∀ (l : List α) (i : Nat), List.findIdx? p l = some i →
      ∀ a, a ∈ l → p a = false → a ∈ l.eraseIdx i := by
  intro l
  induction l with
  | nil => intro i h; simp [List.findIdx?] at h
  | cons x xs ih =>
    intro i h a ha hpa
    rw [List.findIdx?_cons] at h
    by_cases hx : p x = true
    · simp [hx] at h
      subst h
      simp only [List.eraseIdx_zero, List.tail_cons]
      rcases List.mem_cons.mp ha with rfl | hmem
      · rw [hx] at hpa; cases hpa
      · exact hmem
    · simp [hx] at h
      obtain ⟨j, hj, rfl⟩ := h
      simp only [List.eraseIdx_cons_succ]
      rcases List.mem_cons.mp ha with rfl | hmem
      · exact List.mem_cons_self _ _
      · exact List.mem_cons_of_mem _ (ih j hj a hmem hpa)

/-- Mapping a function invariant under the update commutes with
`updateFirst`. -/
theorem map_updateFirst {α β : Type} (p : α → Bool) (f : α → α) (g : α → β)
    (hf : ∀ a, g (f a) = g a) :
    ∀ l : List α, (updateFirst p f l).map g = l.map g := by
  intro l
  induction l with
  | nil => rfl
  | cons x xs ih =>
    simp only [updateFirst]
    by_cases hx : p x = true
    · simp [hx, hf]
    · simp [hx, ih]

/-! ### Scenario states used by concrete theorems -/

/-- History scenario of C2: one tab, push a, b, c, go back twice, push d. -/
def historyScenario : BrowserState :=
  let st := (addTab 0 "" BrowserState.init).1
  let st := addToHistory "tab-0" "a" st
  let st := addToHistory "tab-0" "b" st
  let st := addToHistory "tab-0" "c" st
  let st := (goBack "tab-0" st).1
  let st := (goBack "tab-0" st).1
  addToHistory "tab-0" "d" st

/-- A state with zero capacity, exercising rejection at capacity. -/
def cap0State : BrowserState := { tabs := [], activeTabId := none, maxTabs := 0 }

/-- A registry holding exactly one tab. -/
def soloState : BrowserState :=
  { tabs := [{ id := "tab-9", title := "New Tab", url := "about:blank",
               timestamp := 9, iframe := false, history := [], historyIndex := -1 }]
    activeTabId := some "tab-9", maxTabs := 3 }

/-- Two `addTab` calls sharing one clock value (`Date.now()` tick). -/
def twoTabsSameTick : BrowserState := (addTab 5 "" (addTab 5 "" BrowserState.init).1).1

/-! ### Claim theorems -/

/-- C2: `push(url)` truncates the entries to `position+1` elements,
appends `url`, and sets `position = len(entries)-1`; concretely, on an
empty history, pushing a, b, c, going back twice, and pushing d yields
entries `[a, d]`, position `1`, and `canGoForward() = false`. -/
theorem push_truncates_and_scenario :
    (∀ (t : Tab) (url : String),
      (pushHistory url t).history
          = t.history.take (t.historyIndex + 1).toNat ++ [url] ∧
      (pushHistory url t).historyIndex
          = ((pushHistory url t).history.length : Int) - 1) ∧
    ((historyScenario.tabs.find? fun t => t.id = "tab-0").map Tab.history
        = some ["a", "d"] ∧
     (historyScenario.tabs.find? fun t => t.id = "tab-0").map Tab.historyIndex
        = some 1 ∧
     canGoForward "tab-0" historyScenario = false) := by
  constructor
  · intro t url
    constructor
    · rfl
    · rfl
  · decide

/-- C3 counterexample: an input that begins (after its leading text) with
an explicit scheme but carries trailing whitespace is not returned
unchanged — the code trims it first, so the claimed precedence fails as
stated. -/
theorem sanitize_scheme_input_not_unchanged :
    sanitizeUrl urlOkModel "https://x.com " = "https://x.com" ∧
    sanitizeUrl urlOkModel "https://x.com " ≠ "https://x.com " := by
  decide

/-- C3 amended: `sanitizeUrl` first trims surrounding whitespace, then
obeys the claimed precedence over the trimmed input, returning the
trimmed input (not the original) in the explicit-scheme case; the four
concrete instances hold. -/
theorem sanitizeUrl_precedence :
    (∀ (urlOk : String → Bool) (input : String), jsTrim input = "" →
        sanitizeUrl urlOk input = "https://www.google.com") ∧
    (∀ (urlOk : String → Bool) (input : String), jsTrim input ≠ "" →
        (jsStartsWith (jsTrim input) "http://"
          || jsStartsWith (jsTrim input) "https://") = true →
        sanitizeUrl urlOk input = jsTrim input) ∧
    (∀ (urlOk : String → Bool) (input : String), jsTrim input ≠ "" →
        (jsStartsWith (jsTrim input) "http://"
          || jsStartsWith (jsTrim input) "https://") = false →
        isValidUrl urlOk (jsTrim input) = true →
        sanitizeUrl urlOk input = "https://" ++ jsTrim input) ∧
    (∀ (urlOk : String → Bool) (input : String), jsTrim input ≠ "" →
        (jsStartsWith (jsTrim input) "http://"
          || jsStartsWith (jsTrim input) "https://") = false →
        isValidUrl urlOk (jsTrim input) = false →
        sanitizeUrl urlOk input
          = "https://www.google.com/search?q=" ++ encodeURIComponent (jsTrim input)) ∧
    (sanitizeUrl urlOkModel "" = "https://www.google.com" ∧
     sanitizeUrl urlOkModel "example.com" = "https://example.com" ∧
     sanitizeUrl urlOkModel "https://x.com" = "https://x.com" ∧
     sanitizeUrl urlOkModel "hello world"
        = "https://www.google.com/search?q=hello%20world") := by
  refine ⟨?_, ?_, ?_, ?_, by decide⟩
  · intro urlOk input h
    simp [sanitizeUrl, h]
  · intro urlOk input h1 h2
    simp [sanitizeUrl, h1, h2]
  · intro urlOk input h1 h2 h3
    simp [sanitizeUrl, h1, h2, h3]
  · intro urlOk input h1 h2 h3
    simp [sanitizeUrl, h1, h2, h3]

/-- Witness for the amended C3 theorem at concrete inputs. -/
theorem sanitizeUrl_precedence_witness :
    sanitizeUrl urlOkModel "   " = "https://www.google.com" ∧
    sanitizeUrl urlOkModel " example.com " = "https://example.com" :=
  ⟨sanitizeUrl_precedence.1 urlOkModel "   " (by decide),
   sanitizeUrl_precedence.2.2.1 urlOkModel " example.com " (by decide)
     (by decide) (by decide)⟩

/-- C4: at capacity `addTab` rejects and leaves the state unchanged with
no tab returned; below capacity it appends a newly generated tab and
returns it; the registry length never exceeds the configured maximum. -/
theorem addTab_capacity :
    (∀ (st : BrowserState) (now : Nat) (url : String),
        st.tabs.length = st.maxTabs → addTab now url st = (st, none)) ∧
    (∀ (st : BrowserState) (now : Nat) (url : String),
        st.tabs.length < st.maxTabs →
        ∃ tab, addTab now url st = ({ st with tabs := st.tabs ++ [tab] }, some tab) ∧
          tab.id = "tab-" ++ toString now ∧
          tab.title = "New Tab" ∧
          tab.url = (if url = "" then "about:blank" else url) ∧
          tab.history = [] ∧ tab.historyIndex = -1) ∧
    (∀ (st : BrowserState) (now : Nat) (url : String),
        st.tabs.length ≤ st.maxTabs →
        (addTab now url st).1.tabs.length ≤ st.maxTabs) := by
  refine ⟨?_, ?_, ?_⟩
  · intro st now url h
    simp only [addTab]
    rw [if_pos (by omega)]
  · intro st now url h
    simp only [addTab]
    rw [if_neg (by omega)]
    exact ⟨_, rfl, rfl, rfl, rfl, rfl, rfl⟩
  · intro st now url h
    simp only [addTab]
    split
    · simpa using h
    · rename_i hc
      simp only [List.length_append, List.length_cons, List.length_nil]
      omega

/-- Witness for C4 at concrete states on both sides of the capacity. -/
theorem addTab_capacity_witness :
    addTab 5 "" cap0State = (cap0State, none) ∧
    (addTab 7 "" BrowserState.init).1.tabs.length ≤ BrowserState.init.maxTabs :=
  ⟨addTab_capacity.1 cap0State 5 "" rfl,
   addTab_capacity.2.2 BrowserState.init 7 "" (by decide)⟩

/-- C8: closing a tab while the registry holds exactly one tab is a
no-op on the whole registry state. -/
theorem closeTab_last_tab_noop :
    ∀ (st : BrowserState) (tabId : String),
      st.tabs.length = 1 → closeTab tabId st = st := by
  intro st tabId h
  simp [closeTab, h]

/-- Witness for C8 on a concrete one-tab registry, closing the sole
(and active) tab. -/
theorem closeTab_last_tab_noop_witness :
    closeTab "tab-9" soloState = soloState :=
  closeTab_last_tab_noop soloState "tab-9" rfl

/-- C9: evaluation at the failing input — two `addTab` calls sharing one
`Date.now()` millisecond produce two distinct tabs carrying the same id,
contradicting the claimed uniqueness of ids. -/
theorem duplicate_tab_ids_same_tick :
    twoTabsSameTick.tabs.length = 2 ∧
    twoTabsSameTick.tabs.map Tab.id = ["tab-5", "tab-5"] := by
  decide

/-- C10: the per-tab history interface is total over unknown tab ids —
the queries return `false`, the moves return a null result, and no state
changes. -/
theorem history_ops_total_unknown_tab :
    ∀ (st : BrowserState) (tabId : String),
      (∀ t ∈ st.tabs, t.id ≠ tabId) →
      canGoBack tabId st = false ∧ canGoForward tabId st = false ∧
      goBack tabId st = (st, none) ∧ goForward tabId st = (st, none) := by
  intro st tabId h
  have hN : st.tabs.find? (fun t => t.id = tabId) = none :=
    List.find?_eq_none.mpr (by intro x hx; simpa using h x hx)
  refine ⟨?_, ?_, ?_, ?_⟩
  · simp [canGoBack, hN]
  · simp [canGoForward, hN]
  · simp [goBack, hN]
  · simp [goForward, hN]

/-- Witness for C10 at a concrete state and unknown id. -/
theorem history_ops_total_unknown_tab_witness :
    canGoBack "ghost" soloState = false ∧
    canGoForward "ghost" soloState = false ∧
    goBack "ghost" soloState = (soloState, none) ∧
    goForward "ghost" soloState = (soloState, none) :=
  history_ops_total_unknown_tab soloState "ghost" (by decide)

/-- Registry whose only tab has id `tab-1` and is active. -/
def ghostState : BrowserState :=
  { tabs := [{ id := "tab-1", title := "New Tab", url := "about:blank",
               timestamp := 1, iframe := false, history := [], historyIndex := -1 }]
    activeTabId := some "tab-1", maxTabs := 3 }

/-- C5: `removeTab` on an unknown id is a no-op; on a known id it erases
the first matching tab and, when that tab was active, promotes the first
remaining tab (or none); validity of `activeTabId` is preserved. -/
theorem removeTab_spec :
    (∀ (st : BrowserState) (tabId : String),
        (∀ t ∈ st.tabs, t.id ≠ tabId) → removeTab tabId st = st) ∧
    (∀ (st : BrowserState) (tabId : String) (i : Nat),
        st.tabs.findIdx? (fun t => t.id = tabId) = some i →
        (removeTab tabId st).tabs = st.tabs.eraseIdx i ∧
        (removeTab tabId st).activeTabId =
          (if st.activeTabId = some tabId
           then (st.tabs.eraseIdx i).head?.map Tab.id
           else st.activeTabId)) ∧
    (∀ (st : BrowserState) (tabId : String),
        (st.activeTabId = none ∨ ∃ t ∈ st.tabs, some t.id = st.activeTabId) →
        ((removeTab tabId st).activeTabId = none ∨
         ∃ t ∈ (removeTab tabId st).tabs,
           some t.id = (removeTab tabId st).activeTabId)) := by
  refine ⟨?_, ?_, ?_⟩
  · intro st tabId h
    have hN : st.tabs.findIdx? (fun t => t.id = tabId) = none :=
      List.findIdx?_eq_none_iff.mpr (by intro x hx; simpa using h x hx)
    simp [removeTab, hN]
  · intro st tabId i h
    simp [removeTab, h]
  · intro st tabId h
    cases hF : st.tabs.findIdx? (fun t => t.id = tabId) with
    | none => simpa [removeTab, hF] using h
    | some i =>
      simp only [removeTab, hF]
      by_cases hA : st.activeTabId = some tabId
      · rw [if_pos hA]
        cases hE : st.tabs.eraseIdx i with
        | nil => left; simp
        | cons x xs => right; exact ⟨x, List.mem_cons_self x xs, by simp⟩
      · rw [if_neg hA]
        rcases h with hnone | ⟨t, ht, hid⟩
        · left; exact hnone
        · right
          refine ⟨t, ?_, hid⟩
        
          have hne : t.id ≠ tabId := by
            intro hEq
            exact hA (by rw [← hid, hEq])
          exact mem_eraseIdx_of_findIdx? _ _ _ hF t ht (by simp [hne])

/-- Witness for C5: removing the active of two tabs promotes the first
remaining tab, and the validity invariant holds afterward. -/
theorem removeTab_spec_witness :
    removeTab "ghost" ghostState = ghostState ∧
    ((removeTab "tab-1" ghostState).activeTabId = none ∨
     ∃ t ∈ (removeTab "tab-1" ghostState).tabs,
       some t.id = (removeTab "tab-1" ghostState).activeTabId) :=
  ⟨removeTab_spec.1 ghostState "ghost" (by decide),
   removeTab_spec.2.2 ghostState "tab-1"
     (Or.inr ⟨{ id := "tab-1", title := "New Tab", url := "about:blank",
                timestamp := 1, iframe := false, history := [],
                historyIndex := -1 }, by decide, by decide⟩)⟩

/-- C6 counterexample: `switchTab` with an id present in no tab still
assigns `activeTabId`, so the call is not a no-op and leaves a dangling
active id — the claimed guard does not exist in the code. -/
theorem switchTab_unknown_id_not_noop :
    (switchTab "ghost" ghostState).activeTabId = some "ghost" ∧
    (∀ t ∈ (switchTab "ghost" ghostState).tabs, t.id ≠ "ghost") ∧
    switchTab "ghost" ghostState ≠ ghostState := by
  decide

/-- The `activeTabId` assignment in `switchTab` is unconditional. -/
theorem switchTab_activeTabId (st : BrowserState) (tabId : String) :
    (switchTab tabId st).activeTabId = some tabId := by
  unfold switchTab
  dsimp only
  split
  · rfl
  · split
    · rfl
    · split
      · rfl
      · rfl

/-- `switchTab` never changes the sequence of tab ids. -/
theorem switchTab_tab_ids (st : BrowserState) (tabId : String) :
    (switchTab tabId st).tabs.map Tab.id = st.tabs.map Tab.id := by
  unfold switchTab
  dsimp only
  split
  · rfl
  · split
    · rfl
    · split
      · exact map_updateFirst (fun x => decide (x.id = tabId))
          (fun x => { x with iframe := true }) Tab.id (fun a => rfl) st.tabs
      · rfl

/-- C6 amended: `switchTab` assigns `activeTabId := id` unconditionally
(for an absent id the per-tab UI updates are skipped and the active id
dangles); it never changes the tab ids; and when the id is present the
validity invariant is re-established. -/
theorem switchTab_active_assignment :
    (∀ (st : BrowserState) (tabId : String),
        (switchTab tabId st).activeTabId = some tabId) ∧
    (∀ (st : BrowserState) (tabId : String),
        (switchTab tabId st).tabs.map Tab.id = st.tabs.map Tab.id) ∧
    (∀ (st : BrowserState) (tabId : String), (∃ t ∈ st.tabs, t.id = tabId) →
        ∃ t ∈ (switchTab tabId st).tabs,
          some t.id = (switchTab tabId st).activeTabId) := by
  refine ⟨switchTab_activeTabId, switchTab_tab_ids, ?_⟩
  intro st tabId h
  obtain ⟨t, ht, hid⟩ := h
  have hmem : tabId ∈ (switchTab tabId st).tabs.map Tab.id := by
    rw [switchTab_tab_ids]
    exact List.mem_map.mpr ⟨t, ht, hid⟩
  obtain ⟨t', ht', hid'⟩ := List.mem_map.mp hmem
  exact ⟨t', ht', by rw [hid', switchTab_activeTabId]⟩

/-- Witness for the amended C6 theorem on a concrete registry. -/
theorem switchTab_active_assignment_witness :
    (switchTab "tab-1" ghostState).activeTabId = some "tab-1" ∧
    (∃ t ∈ (switchTab "tab-1" ghostState).tabs,
      some t.id = (switchTab "tab-1" ghostState).activeTabId) :=
  ⟨switchTab_active_assignment.1 ghostState "tab-1",
   switchTab_active_assignment.2.2 ghostState "tab-1"
     ⟨{ id := "tab-1", title := "New Tab", url := "about:blank",
        timestamp := 1, iframe := false, history := [],
        historyIndex := -1 }, by decide, by decide⟩⟩

/-- Tab with a two-entry history positioned at its end. -/
def backTab : Tab :=
  { id := "tab-2", title := "T", url := "https://x.com", timestamp := 2,
    iframe := true, history := ["x", "y"], historyIndex := 1 }

/-- Registry holding `backTab` as its active tab. -/
def backState : BrowserState :=
  { tabs := [backTab], activeTabId := some "tab-2", maxTabs := 3 }

/-- `backState` after one successful `goBack` on its tab. -/
def backPoppedState : BrowserState :=
  { tabs := [{ backTab with historyIndex := 0 }],
    activeTabId := some "tab-2", maxTabs := 3 }

/-- C7: with `canGoBack` false, `goBack` returns a null result and leaves
the state unchanged; with `canGoBack` true it decrements the found tab's
position and returns the entry at the new position (a real URL whenever
the position invariant holds); `goForward` is symmetric with respect to
`canGoForward`. -/
theorem goBack_goForward_spec :
    (∀ (st : BrowserState) (tabId : String),
        canGoBack tabId st = false → goBack tabId st = (st, none)) ∧
    (∀ (st : BrowserState) (tabId : String) (t : Tab),
        st.tabs.find? (fun x => x.id = tabId) = some t →
        t.historyIndex > 0 →
        goBack tabId st =
          ({ st with tabs :=
              (updateFirst (fun x => x.id = tabId)
                (fun x => { x with historyIndex := x.historyIndex - 1 }) st.tabs) },
           t.history[(t.historyIndex - 1).toNat]?)) ∧
    (∀ (st : BrowserState) (tabId : String) (t : Tab)
        (hF : st.tabs.find? (fun x => x.id = tabId) = some t)
        (hgt : t.historyIndex > 0)
        (hlen : t.historyIndex < (t.history.length : Int)),
        ((goBack tabId st).2).isSome = true) ∧
    (∀ (st : BrowserState) (tabId : String),
        canGoForward tabId st = false → goForward tabId st = (st, none)) ∧
    (∀ (st : BrowserState) (tabId : String) (t : Tab),
        st.tabs.find? (fun x => x.id = tabId) = some t →
        t.historyIndex < (t.history.length : Int) - 1 →
        goForward tabId st =
          ({ st with tabs :=
              (updateFirst (fun x => x.id = tabId)
                (fun x => { x with historyIndex := x.historyIndex + 1 }) st.tabs) },
           t.history[(t.historyIndex + 1).toNat]?)) ∧
    (∀ (st : BrowserState) (tabId : String) (t : Tab)
        (hF : st.tabs.find? (fun x => x.id = tabId) = some t)
        (hge : -1 ≤ t.historyIndex)
        (hlt : t.historyIndex < (t.history.length : Int) - 1),
        ((goForward tabId st).2).isSome = true) := by
  refine ⟨?_, ?_, ?_, ?_, ?_, ?_⟩
  · intro st tabId h
    cases hF : st.tabs.find? (fun x => x.id = tabId) <;> simp [goBack, hF, h]
  · intro st tabId t hF hgt
    have hc : canGoBack tabId st = true := by
      simp only [canGoBack, hF]
      exact decide_eq_true hgt
    simp [goBack, hF, hc]
  · intro st tabId t hF hgt hlen
    have hc : canGoBack tabId st = true := by
      simp only [canGoBack, hF]
      exact decide_eq_true hgt
    have hidx : t.historyIndex.toNat - 1 < t.history.length := by omega
    simp [goBack, hF, hc, List.getElem?_eq_getElem hidx]
  · intro st tabId h
    cases hF : st.tabs.find? (fun x => x.id = tabId) <;> simp [goForward, hF, h]
  · intro st tabId t hF hlt
    have hc : canGoForward tabId st = true := by
      simp only [canGoForward, hF]
      exact decide_eq_true hlt
    simp [goForward, hF, hc]
  · intro st tabId t hF hge hlt
    have hc : canGoForward tabId st = true := by
      simp only [canGoForward, hF]
      exact decide_eq_true hlt
    have hidx : (t.historyIndex + 1).toNat < t.history.length := by omega
    simp [goForward, hF, hc, List.getElem?_eq_getElem hidx]

/-- Witness for C7: a successful back step and a refused forward step on
concrete registries. -/
theorem goBack_goForward_spec_witness :
    goBack "tab-2" backState = (backPoppedState, some "x") ∧
    goForward "tab-2" backState = (backState, none) :=
  ⟨(goBack_goForward_spec.2.1 backState "tab-2" backTab (by decide)
      (by decide)).trans (by decide),
   goBack_goForward_spec.2.2.2.1 backState "tab-2" (by decide)⟩

/-- C1: evaluation at the failing trace — the settle and re-check timers
carry no attempt token and are never cancelled by a later `navigate` on
the same tab, so in `demoTrace` the attempt superseded at time 300 still
owns the pending settle timer (ghost tag 1, current attempt 2), and its
firing clears the error panel raised by the current attempt and rewrites
the title: a UI mutation by a superseded attempt's delayed callback. -/
theorem stale_settle_mutates_ui :
    demoTrace.attempt = 2 ∧
    demoTrace.pending = [(600, Cb.settle 1)] ∧
    demoTrace.errorShown = true ∧
    demoTraceAfter.errorShown = false ∧
    demoTraceAfter.pending = [] := by
  decide
